import Mathlib

/-!
Shallow embedding of the license-validation core of this repository
(`src/license_core.py`) and proofs of the specification claims about it.

Modelling conventions:
* Python strings are modelled as `List Char` (`PyStr`).  The code only
  handles ASCII key/hwid material, so `Char.toUpper`/`Char.toLower`
  faithfully model Python's `str.upper()`/`str.lower()` on the inputs in
  scope, and `pyStrip` models `str.strip()` over ASCII whitespace.
* UTF-8 encoding (`str.encode`) is injective, so byte strings are kept at
  the character level.
* The SQLite table `licenses` is modelled as a list of rows; `SELECT ...
  WHERE license_hash=?` is `List.find?`, and each `UPDATE` is a `List.map`
  that rewrites the matching rows, exactly mirroring the SQL `WHERE`
  clause used (by `license_hash` or by `id`).
* Each awaited SQL statement of `api_activate` is one atomic step; the
  read step (`SELECT`) and the decide/write step (`UPDATE` + response)
  are separate functions so that interleavings of concurrent activation
  calls can be expressed as sequences of those steps.
-/

/-- Python strings, modelled as lists of characters. -/
abbrev PyStr := List Char

/-- The ASCII whitespace characters removed by Python's `str.strip()`. -/
def isPySpace (c : Char) : Bool :=
  (c == ' ') || (c == '\t') || (c == '\n') || (c == '\r') || (c == '\x0b') || (c == '\x0c')

/-- Python `s.strip()`: remove leading and trailing whitespace. -/
def pyStrip (s : PyStr) : PyStr :=
  ((s.dropWhile isPySpace).reverse.dropWhile isPySpace).reverse

/-- `normalize_key` (license_core.py line 47): `k.strip().upper()`. -/
def normalize_key (k : PyStr) : PyStr :=
  (pyStrip k).map Char.toUpper

/-- The hwid normalization inlined at license_core.py line 164:
`str(data.get("hwid", "")).strip().lower()`. -/
def normalize_hwid (h : PyStr) : PyStr :=
  (pyStrip h).map Char.toLower

/-- `sha256_hex` (license_core.py line 44).  The repository only ever
compares digests for equality and the spec treats digests as opaque
strings, so SHA-256 is modelled under the standard collision-freeness
idealization as an injective function of the hashed bytes; this model
realizes that by taking the digest to be the input itself. -/
def sha256_hex (b : PyStr) : PyStr := b

/-- `hash_license_key` (license_core.py line 50):
`sha256_hex(PEPPER_BYTES + license_key.strip().encode("utf-8"))`.
The process-wide pepper is passed explicitly. -/
def hash_license_key (pepper : PyStr) (license_key : PyStr) : PyStr :=
  sha256_hex (pepper ++ pyStrip license_key)

/-- `hash_hwid` (license_core.py line 53):
`sha256_hex(PEPPER_BYTES + hwid.strip().encode("utf-8"))`. -/
def hash_hwid (pepper : PyStr) (hwid : PyStr) : PyStr :=
  sha256_hex (pepper ++ pyStrip hwid)

/-- The startup pepper check (license_core.py lines 12-14): the
`LICENSE_PEPPER` environment variable is read (absent modelled as
`none`), and if it is empty or shorter than 32 characters the module
raises `SystemExit` at import time, before any other definition of the
system is even created.  `Except.error` is the fatal abort. -/
def license_pepper_check (env : Option PyStr) : Except PyStr PyStr :=
  let pepper := env.getD []
  if pepper = [] ∨ pepper.length < 32 then
    Except.error ("Missing/weak LICENSE_PEPPER env var. Use 32+ chars random.").toList
  else
    Except.ok pepper

-- ## Whitespace-stripping lemmas

theorem dropWhile_head?_false {p : Char → Bool} {l : PyStr}
    (h : ∀ c, l.head? = some c → p c = false) : l.dropWhile p = l := by
  cases l with
  | nil => rfl
  | cons x xs =>
    have hx : p x = false := h x rfl
    simp [List.dropWhile_cons, hx]

theorem head?_pyStrip_false {l : PyStr} {c : Char}
    (h : (pyStrip l).head? = some c) : isPySpace c = false := by
  unfold pyStrip at h
  rw [List.head?_reverse] at h
  have h2 : ((l.dropWhile isPySpace).reverse).getLast? = some c := by
    conv_lhs =>
      rw [← List.takeWhile_append_dropWhile (p := isPySpace)
        (l := (l.dropWhile isPySpace).reverse)]
    rw [List.getLast?_append, h, Option.or_some]
  rw [List.getLast?_reverse] at h2
  have hh := List.head?_dropWhile_not isPySpace l
  rw [h2] at hh
  simpa using hh

theorem getLast?_pyStrip_false {l : PyStr} {c : Char}
    (h : (pyStrip l).getLast? = some c) : isPySpace c = false := by
  unfold pyStrip at h
  rw [List.getLast?_reverse] at h
  have hh := List.head?_dropWhile_not isPySpace (l.dropWhile isPySpace).reverse
  rw [h] at hh
  simpa using hh

theorem pyStrip_eq_self {m : PyStr}
    (h1 : ∀ c, m.head? = some c → isPySpace c = false)
    (h2 : ∀ c, m.getLast? = some c → isPySpace c = false) : pyStrip m = m := by
  unfold pyStrip
  rw [dropWhile_head?_false h1]
  rw [dropWhile_head?_false (fun c hc => h2 c (by rwa [List.head?_reverse] at hc))]
  exact List.reverse_reverse m

theorem pyStrip_idem (l : PyStr) : pyStrip (pyStrip l) = pyStrip l :=
  pyStrip_eq_self (fun _ hc => head?_pyStrip_false hc)
    (fun _ hc => getLast?_pyStrip_false hc)

-- ## Data model: the `licenses` table

/-- One row of the SQLite `licenses` table (license_core.py lines 24-36).
`expires_at` NULL means lifetime; `hwid_hash` NULL means unbound. -/
structure LicenseRow where
  id : Nat
  license_hash : PyStr
  created_at : Int
  created_by : Int
  expires_at : Option Int
  revoked : Bool
  hwid_hash : Option PyStr
  last_seen_at : Option Int
deriving DecidableEq

/-- The `licenses` table, as the list of its rows. -/
abbrev Db := List LicenseRow

/-- `SELECT ... FROM licenses WHERE license_hash=?` (first matching row). -/
def findRow (db : Db) (lhash : PyStr) : Option LicenseRow :=
  db.find? (fun r => decide (r.license_hash = lhash))

/-- `UPDATE licenses SET hwid_hash=?, last_seen_at=? WHERE id=?`
(license_core.py lines 192-195): the first-activation bind write. -/
def bindUpdate (db : Db) (i : Nat) (hh : PyStr) (t : Int) : Db :=
  db.map (fun r => if r.id = i then
    { r with hwid_hash := some hh, last_seen_at := some t } else r)

/-- `UPDATE licenses SET last_seen_at=? WHERE id=?`
(license_core.py line 202): the repeat-activation refresh write. -/
def seenUpdate (db : Db) (i : Nat) (t : Int) : Db :=
  db.map (fun r => if r.id = i then { r with last_seen_at := some t } else r)

/-- `UPDATE licenses SET expires_at=? WHERE license_hash=?`
(license_core.py line 120). -/
def expiryUpdate (db : Db) (lhash : PyStr) (e : Int) : Db :=
  db.map (fun r => if r.license_hash = lhash then
    { r with expires_at := some e } else r)

-- ## Store operation: db_add_time

/-- Result of `db_add_time` (license_core.py lines 106-122), which returns
`(False, "not_found")`, `(True, "lifetime_noop")` or `(True, str(new_exp))`;
`str` is injective on integers, so the message is kept structured. -/
inductive AddTimeResult where
  | notFound
  | lifetimeNoop
  | newExpiresAt (e : Int)
deriving DecidableEq

/-- `db_add_time` (license_core.py lines 106-122): look the row up by key
hash; a missing row reports not-found, a NULL `expires_at` reports the
lifetime no-op without touching the table, otherwise the new expiry is
`max(expires_at, now) + add_seconds` and is written back. `t` is `now_ts()`. -/
def db_add_time (pepper : PyStr) (db : Db) (t : Int) (license_key : PyStr)
    (add_seconds : Int) : AddTimeResult × Db :=
  let lhash := hash_license_key pepper license_key
  match findRow db lhash with
  | none => (AddTimeResult.notFound, db)
  | some row =>
    match row.expires_at with
    | none => (AddTimeResult.lifetimeNoop, db)
    | some e =>
      let base := max e t
      let new_exp := base + add_seconds
      (AddTimeResult.newExpiresAt new_exp, expiryUpdate db lhash new_exp)

-- ## Rate limiter

/-- `RATE_LIMIT_WINDOW` (license_core.py line 134). -/
def RATE_LIMIT_WINDOW : Int := 60

/-- `RATE_LIMIT_MAX` (license_core.py line 135). -/
def RATE_LIMIT_MAX : Nat := 60

/-- The `_rate` dict (license_core.py line 136): source address to
`(count, reset)`. -/
abbrev RateState := List (PyStr × (Nat × Int))

/-- `_rate.get(ip)` on the association-list model of the dict. -/
def rateGet : RateState → PyStr → Option (Nat × Int)
  | [], _ => none
  | (k, v) :: rest, ip => if k = ip then some v else rateGet rest ip

/-- `_rate[ip] = v` on the association-list model of the dict. -/
def rateSet : RateState → PyStr → Nat × Int → RateState
  | [], ip, v => [(ip, v)]
  | (k, w) :: rest, ip, v =>
    if k = ip then (ip, v) :: rest else (k, w) :: rateSet rest ip v

/-- `rate_limit_ok` (license_core.py lines 138-148).  `t` is `now_ts()`;
returns whether the request is admitted together with the updated table. -/
def rate_limit_ok (st : RateState) (ip : PyStr) (t : Int) : Bool × RateState :=
  let cr := (rateGet st ip).getD (0, t + RATE_LIMIT_WINDOW)
  let count := cr.1
  let reset := cr.2
  if reset < t then
    (true, rateSet st ip (1, t + RATE_LIMIT_WINDOW))
  else if RATE_LIMIT_MAX ≤ count then
    (false, rateSet st ip (count, reset))
  else
    (true, rateSet st ip (count + 1, reset))

/-- A sequence of requests from one source address through the rate
limiter, returning the individual admit/reject outcomes and the final
limiter state. -/
def runRequests (st : RateState) (ip : PyStr) : List Int → List Bool × RateState
  | [] => ([], st)
  | t :: rest =>
    let r1 := rate_limit_ok st ip t
    let r2 := runRequests r1.2 ip rest
    (r1.1 :: r2.1, r2.2)

-- ## Activation engine

/-- The JSON responses of `api_activate` (license_core.py lines 153-204):
`rateLimited` is the 429 response, `badJson` the 400 response, `invalid`,
`expired` and `hwidMismatch` the three 401 bodies, and `ok e` the 200
body `{"ok": true, "expires_at": e, "bound": true}`. -/
inductive ActResp where
  | rateLimited
  | badJson
  | invalid
  | expired
  | hwidMismatch
  | ok (expires_at : Option Int)
deriving DecidableEq

/-- The expiry test of license_core.py line 188:
`expires_at is not None and int(expires_at) < t`. -/
def isExpired (e : Option Int) (t : Int) : Bool :=
  match e with
  | none => false
  | some v => decide (v < t)

/-- The `SELECT` step of `api_activate` (license_core.py lines 176-180):
fetch the row snapshot for the hashed key. -/
def activate_read (db : Db) (lhash : PyStr) : Option LicenseRow :=
  findRow db lhash

/-- The decide-and-write step of `api_activate` (license_core.py lines
181-204), acting on the previously fetched snapshot: not-found and
revoked report `invalid`, an expiry strictly in the past reports
`expired`, a NULL `hwid_hash` binds (writing `hwid_hash` and
`last_seen_at` into the current table by row id), a foreign bound hash
reports `hwidMismatch`, and a matching bound hash refreshes
`last_seen_at`.  Note the bind `UPDATE` is unconditional: it is keyed
only on `id`, not guarded on `hwid_hash` still being NULL. -/
def activate_decide (db : Db) (t : Int) (hh : PyStr)
    (snap : Option LicenseRow) : ActResp × Db :=
  match snap with
  | none => (ActResp.invalid, db)
  | some row =>
    if row.revoked then (ActResp.invalid, db)
    else if isExpired row.expires_at t then (ActResp.expired, db)
    else
      match row.hwid_hash with
      | none => (ActResp.ok row.expires_at, bindUpdate db row.id hh t)
      | some bound =>
        if bound ≠ hh then (ActResp.hwidMismatch, db)
        else (ActResp.ok row.expires_at, seenUpdate db row.id t)

/-- The activation engine body of `api_activate` (license_core.py lines
163-204), after the rate-limit gate and JSON parse: normalize the key
and hwid, validate lengths before any store access, then run the read
and decide/write steps sequentially on the store. `t` is `now_ts()`. -/
def api_activate_body (pepper : PyStr) (db : Db) (t : Int)
    (rawKey rawHwid : PyStr) : ActResp × Db :=
  let license_key := normalize_key rawKey
  let hwid := normalize_hwid rawHwid
  if license_key.length < 10 ∨ 128 < license_key.length then (ActResp.invalid, db)
  else if hwid.length < 16 ∨ 128 < hwid.length then (ActResp.invalid, db)
  else
    let lhash := hash_license_key pepper license_key
    let hh := hash_hwid pepper hwid
    activate_decide db t hh (activate_read db lhash)

/-- The full `api_activate` handler (license_core.py lines 153-204):
rate-limit gate first, then the JSON parse (`none` models a body that
fails `request.json()`), then the activation engine body. -/
def api_activate (pepper : PyStr) (rate : RateState) (db : Db) (ip : PyStr)
    (t : Int) (body : Option (PyStr × PyStr)) : ActResp × RateState × Db :=
  let gate := rate_limit_ok rate ip t
  if gate.1 = false then (ActResp.rateLimited, gate.2, db)
  else
    match body with
    | none => (ActResp.badJson, gate.2, db)
    | some (rawKey, rawHwid) =>
      let r := api_activate_body pepper db t rawKey rawHwid
      (r.1, gate.2, r.2)

-- ## Lookup/update commutation lemmas

theorem findRow_map_pres {f : LicenseRow → LicenseRow}
    (hf : ∀ r, (f r).license_hash = r.license_hash) (db : Db) (lhash : PyStr) :
    findRow (db.map f) lhash = (findRow db lhash).map f := by
  unfold findRow
  rw [List.find?_map]
  have hp : ((fun r => decide (r.license_hash = lhash)) ∘ f) =
      (fun r => decide (r.license_hash = lhash)) := by
    funext r
    simp [Function.comp, hf]
  rw [hp]

theorem findRow_bindUpdate (db : Db) (i : Nat) (hh : PyStr) (t : Int)
    (lhash : PyStr) :
    findRow (bindUpdate db i hh t) lhash =
      (findRow db lhash).map (fun r => if r.id = i then
        { r with hwid_hash := some hh, last_seen_at := some t } else r) := by
  apply findRow_map_pres
  intro r
  by_cases h : r.id = i <;> simp [h]

theorem findRow_seenUpdate (db : Db) (i : Nat) (t : Int) (lhash : PyStr) :
    findRow (seenUpdate db i t) lhash =
      (findRow db lhash).map (fun r => if r.id = i then
        { r with last_seen_at := some t } else r) := by
  apply findRow_map_pres
  intro r
  by_cases h : r.id = i <;> simp [h]

theorem findRow_expiryUpdate (db : Db) (lh : PyStr) (e : Int) (lhash : PyStr) :
    findRow (expiryUpdate db lh e) lhash =
      (findRow db lhash).map (fun r => if r.license_hash = lh then
        { r with expires_at := some e } else r) := by
  apply findRow_map_pres
  intro r
  by_cases h : r.license_hash = lh <;> simp [h]

theorem findRow_some_hash {db : Db} {lhash : PyStr} {row : LicenseRow}
    (h : findRow db lhash = some row) : row.license_hash = lhash := by
  have := List.find?_some h
  exact of_decide_eq_true this

-- ## Concrete scenario used by the closed theorems

/-- A 32-character pepper, strong enough to pass the startup check. -/
def pepperEx : PyStr := List.replicate 32 'P'

/-- A well-formed license key in the generator's format. -/
def keyEx : PyStr := ("DBX-AAAAA-AAAAA-AAAAA-AAAAA-AAAAA").toList

/-- A well-formed 16-character hardware identifier. -/
def hwidExA : PyStr := List.replicate 16 'a'

/-- A second, different well-formed hardware identifier. -/
def hwidExB : PyStr := List.replicate 16 'b'

-- ## C10

/-- C10: for every pepper and every input string, the key digest and the
hwid digest coincide: `hash_license_key` and `hash_hwid` compute the same
digest of pepper plus the stripped input, so there is no domain
separation between license-key hashes and hardware-identifier hashes. -/
theorem C10_hash_key_eq_hash_hwid (pepper x : PyStr) :
    hash_license_key pepper x = hash_hwid pepper x := rfl

-- ## C2

/-- C2 counterexample: with a valid 32-character pepper, the spec's own
examples fail: `hash_license_key " abc "` differs from
`hash_license_key "ABC"` and `hash_hwid "AA:BB"` differs from
`hash_hwid " aa:bb "`, because the hash functions only strip surrounding
whitespace and perform no case normalization (case folding happens in
`api_activate`, before these functions are called). -/
theorem C2_case_counterexample :
    hash_license_key pepperEx ((" abc ").toList) ≠
      hash_license_key pepperEx (("ABC").toList)
    ∧ hash_hwid pepperEx (("AA:BB").toList) ≠
      hash_hwid pepperEx ((" aa:bb ").toList) := by
  exact ⟨by decide, by decide⟩

/-- C2 (amended): the credential hash functions are only whitespace-trim
insensitive, not case insensitive: for every pepper and input,
`hash_license_key` of a string equals `hash_license_key` of its stripped
form, and likewise `hash_hwid`; differing letter case changes the digest
(see the counterexample), because case normalization is performed by the
callers before hashing, not by the hash functions. -/
theorem C2_hash_strip_insensitive (pepper s : PyStr) :
    hash_license_key pepper s = hash_license_key pepper (pyStrip s)
    ∧ hash_hwid pepper s = hash_hwid pepper (pyStrip s) := by
  unfold hash_license_key hash_hwid
  rw [pyStrip_idem]
  exact ⟨rfl, rfl⟩

-- ## C9

/-- C9: the startup pepper check aborts fatally exactly when the
configured pepper is absent or shorter than 32 characters (an absent
variable reads as the empty string).  The check runs at module import
time, before any handler, store operation, or route of the system is
created, so no operation ever runs with a missing/weak pepper. -/
theorem C9_pepper_startup (env : Option PyStr) :
    license_pepper_check env =
      (if (env.getD []).length < 32 then
        Except.error (("Missing/weak LICENSE_PEPPER env var. Use 32+ chars random.").toList)
      else
        Except.ok (env.getD [])) := by
  unfold license_pepper_check
  by_cases h : (env.getD []).length < 32
  · simp [h]
  · have hne : env.getD [] ≠ [] := by
      intro hnil
      rw [hnil] at h
      simp at h
    simp [h, hne]

-- ## C6

/-- C6: for every lifetime license (NULL `expires_at`), `db_add_time`
with any number of seconds returns the lifetime no-op outcome and leaves
the whole table — in particular every field of the record — unchanged. -/
theorem C6_addtime_lifetime_noop (pepper : PyStr) (db : Db) (t : Int)
    (key : PyStr) (s : Int) (row : LicenseRow)
    (hfind : findRow db (hash_license_key pepper key) = some row)
    (hlife : row.expires_at = none) :
    db_add_time pepper db t key s = (AddTimeResult.lifetimeNoop, db) := by
  simp [db_add_time, hfind, hlife]

/-- A concrete lifetime license row bound to `keyEx`, used by witnesses. -/
def rowLifetime : LicenseRow :=
  { id := 1, license_hash := hash_license_key pepperEx keyEx,
    created_at := 0, created_by := 7, expires_at := none,
    revoked := false, hwid_hash := none, last_seen_at := none }

/-- Witness for C6 at a concrete lifetime license. -/
theorem C6_addtime_lifetime_noop_witness :
    findRow [rowLifetime] (hash_license_key pepperEx keyEx) = some rowLifetime
    ∧ db_add_time pepperEx [rowLifetime] 100 keyEx 3600 =
      (AddTimeResult.lifetimeNoop, [rowLifetime]) :=
  ⟨by decide, C6_addtime_lifetime_noop pepperEx [rowLifetime] 100 keyEx 3600
    rowLifetime (by decide) rfl⟩

-- ## C5

/-- C5: for every license with a non-NULL `expires_at`, `db_add_time`
with `s` seconds reports and stores the new expiry
`max(current expires_at, now) + s`; in particular, when the license is
already expired (`expires_at < now`) the new expiry is `now + s` rather
than `expires_at + s`. -/
theorem C5_addtime_max_base (pepper : PyStr) (db : Db) (t : Int)
    (key : PyStr) (s : Int) (row : LicenseRow) (e : Int)
    (hfind : findRow db (hash_license_key pepper key) = some row)
    (hexp : row.expires_at = some e) :
    db_add_time pepper db t key s =
      (AddTimeResult.newExpiresAt (max e t + s),
        expiryUpdate db (hash_license_key pepper key) (max e t + s))
    ∧ findRow (db_add_time pepper db t key s).2 (hash_license_key pepper key) =
      some { row with expires_at := some (max e t + s) }
    ∧ (e < t → max e t + s = t + s) := by
  have h1 : db_add_time pepper db t key s =
      (AddTimeResult.newExpiresAt (max e t + s),
        expiryUpdate db (hash_license_key pepper key) (max e t + s)) := by
    simp [db_add_time, hfind, hexp]
  refine ⟨h1, ?_, fun hlt => by rw [max_eq_right (le_of_lt hlt)]⟩
  rw [h1]
  rw [findRow_expiryUpdate]
  rw [hfind]
  simp [findRow_some_hash hfind]

/-- A concrete already-expired license row bound to `keyEx`. -/
def rowExpired : LicenseRow :=
  { id := 2, license_hash := hash_license_key pepperEx keyEx,
    created_at := 0, created_by := 7, expires_at := some 50,
    revoked := false, hwid_hash := none, last_seen_at := none }

/-- Witness for C5: adding 3600 seconds at time 100 to a license that
expired at time 50 re-expires it at 100 + 3600, not 50 + 3600. -/
theorem C5_addtime_max_base_witness :
    findRow [rowExpired] (hash_license_key pepperEx keyEx) = some rowExpired
    ∧ (db_add_time pepperEx [rowExpired] 100 keyEx 3600 =
        (AddTimeResult.newExpiresAt (max 50 100 + 3600),
          expiryUpdate [rowExpired] (hash_license_key pepperEx keyEx)
            (max 50 100 + 3600))
      ∧ findRow (db_add_time pepperEx [rowExpired] 100 keyEx 3600).2
          (hash_license_key pepperEx keyEx) =
        some { rowExpired with expires_at := some (max 50 100 + 3600) }
      ∧ ((50 : Int) < 100 → max (50 : Int) 100 + 3600 = 100 + 3600)) :=
  ⟨by decide,
    C5_addtime_max_base pepperEx [rowExpired] 100 keyEx 3600 rowExpired 50
      (by decide) rfl⟩

-- ## C3

/-- C3: for every found license record with `revoked` set, activation
with a well-formed key and hwid that hash to that record returns the
`invalid` outcome — the same `ActResp.invalid` produced for an unknown
key — and leaves the store untouched, regardless of the supplied hwid
and regardless of the record's expiry or binding state: the revocation
test at license_core.py line 185 runs before the expiry test (line 188)
and the binding logic (lines 191-204). -/
theorem C3_revoked_invalid (pepper : PyStr) (db : Db) (t : Int)
    (rawKey rawHwid : PyStr) (row : LicenseRow)
    (hk1 : 10 ≤ (normalize_key rawKey).length)
    (hk2 : (normalize_key rawKey).length ≤ 128)
    (hw1 : 16 ≤ (normalize_hwid rawHwid).length)
    (hw2 : (normalize_hwid rawHwid).length ≤ 128)
    (hfind : findRow db (hash_license_key pepper (normalize_key rawKey)) = some row)
    (hrev : row.revoked = true) :
    api_activate_body pepper db t rawKey rawHwid = (ActResp.invalid, db) := by
  have hc1 : ¬((normalize_key rawKey).length < 10 ∨
      128 < (normalize_key rawKey).length) := by omega
  have hc2 : ¬((normalize_hwid rawHwid).length < 16 ∨
      128 < (normalize_hwid rawHwid).length) := by omega
  simp only [api_activate_body, if_neg hc1, if_neg hc2, activate_read]
  rw [hfind]
  simp [activate_decide, hrev]

/-- A concrete revoked, expired and bound license row for `keyEx`: even
with every other disqualifier present, revocation wins and the outcome
is `invalid`. -/
def rowRevoked : LicenseRow :=
  { id := 3, license_hash := hash_license_key pepperEx keyEx,
    created_at := 0, created_by := 7, expires_at := some 10,
    revoked := true, hwid_hash := some (hash_hwid pepperEx hwidExB),
    last_seen_at := some 5 }

/-- Witness for C3 at a revoked license that is also expired and bound. -/
theorem C3_revoked_invalid_witness :
    findRow [rowRevoked] (hash_license_key pepperEx (normalize_key keyEx)) =
      some rowRevoked
    ∧ api_activate_body pepperEx [rowRevoked] 100 keyEx hwidExA =
      (ActResp.invalid, [rowRevoked]) :=
  ⟨by decide,
    C3_revoked_invalid pepperEx [rowRevoked] 100 keyEx hwidExA rowRevoked
      (by decide) (by decide) (by decide) (by decide) (by decide) rfl⟩

-- ## C8

/-- C8: any activation request whose normalized key length falls outside
[10, 128] or whose normalized hwid length falls outside [16, 128] gets
the `invalid` outcome uniformly in the store — the same response and an
unchanged table for every possible store contents — because the length
checks at license_core.py lines 166-169 run before the store is opened. -/
theorem C8_length_validation (pepper : PyStr) (t : Int) (rawKey rawHwid : PyStr)
    (hbad : (normalize_key rawKey).length < 10 ∨
      128 < (normalize_key rawKey).length ∨
      (normalize_hwid rawHwid).length < 16 ∨
      128 < (normalize_hwid rawHwid).length) :
    ∀ db : Db, api_activate_body pepper db t rawKey rawHwid =
      (ActResp.invalid, db) := by
  intro db
  by_cases hk : (normalize_key rawKey).length < 10 ∨
      128 < (normalize_key rawKey).length
  · simp [api_activate_body, hk]
  · have hw : (normalize_hwid rawHwid).length < 16 ∨
        128 < (normalize_hwid rawHwid).length := by
      rcases hbad with h | h | h | h
      · exact absurd (Or.inl h) hk
      · exact absurd (Or.inr h) hk
      · exact Or.inl h
      · exact Or.inr h
    simp [api_activate_body, hk, hw]

/-- Witness for C8: a five-character key is rejected as `invalid` with
the store — here a nonempty one — left exactly as it was. -/
theorem C8_length_validation_witness :
    ((normalize_key (("abcde").toList)).length < 10 ∨
      128 < (normalize_key (("abcde").toList)).length ∨
      (normalize_hwid hwidExA).length < 16 ∨
      128 < (normalize_hwid hwidExA).length)
    ∧ api_activate_body pepperEx [rowLifetime] 100 (("abcde").toList) hwidExA =
      (ActResp.invalid, [rowLifetime]) :=
  ⟨by decide,
    C8_length_validation pepperEx 100 (("abcde").toList) hwidExA
      (by decide) [rowLifetime]⟩

-- ## C7

theorem rate_limit_ok_under (ip : PyStr) (c : Nat) (r t : Int)
    (ht : t ≤ r) (hc : c < RATE_LIMIT_MAX) :
    rate_limit_ok [(ip, (c, r))] ip t = (true, [(ip, (c + 1, r))]) := by
  have h1 : ¬(r < t) := not_lt.2 ht
  have h2 : ¬(RATE_LIMIT_MAX ≤ c) := not_le.2 hc
  simp [rate_limit_ok, rateGet, rateSet, h1, h2]

theorem runRequests_in_window (ip : PyStr) (r : Int) (ts : List Int)
    (hts : ∀ t ∈ ts, t ≤ r) :
    ∀ c : Nat, c + ts.length ≤ RATE_LIMIT_MAX →
      runRequests [(ip, (c, r))] ip ts =
        (List.replicate ts.length true, [(ip, (c + ts.length, r))]) := by
  induction ts with
  | nil =>
    intro c _
    simp [runRequests]
  | cons t rest ih =>
    intro c hc
    have ht : t ≤ r := hts t (List.mem_cons_self t rest)
    have hrest : ∀ u ∈ rest, u ≤ r := fun u hu => hts u (List.mem_cons_of_mem t hu)
    have hlt : c < RATE_LIMIT_MAX := by
      simp only [List.length_cons] at hc
      omega
    have hstep := rate_limit_ok_under ip c r t ht hlt
    have hrec := ih hrest (c + 1) (by simp only [List.length_cons] at hc; omega)
    have h3 : c + 1 + rest.length = c + (rest.length + 1) := by omega
    simp only [runRequests, hstep, hrec, List.length_cons, List.replicate_succ, h3]

/-- C7: from an empty rate-limiter state, the first request from a
source at time `t0` opens a window with deadline `t0 + 60`; that request
and any 59 further requests at times up to the deadline are all
admitted, a 61st request inside the same window is rejected (with the
counter and deadline left in place, feeding the 429 `rate_limited`
response), and the first request strictly after the deadline is admitted
again with the counter restarted to 1 and a fresh deadline `now + 60`. -/
theorem C7_rate_limiter (ip : PyStr) (t0 : Int) (rest : List Int)
    (t61 tNext : Int)
    (hlen : rest.length = 59)
    (hrest : ∀ u ∈ rest, u ≤ t0 + 60)
    (h61 : t61 ≤ t0 + 60)
    (hNext : t0 + 60 < tNext) :
    runRequests [] ip (t0 :: rest) =
      (List.replicate 60 true, [(ip, (60, t0 + 60))])
    ∧ rate_limit_ok [(ip, (60, t0 + 60))] ip t61 =
      (false, [(ip, (60, t0 + 60))])
    ∧ rate_limit_ok [(ip, (60, t0 + 60))] ip tNext =
      (true, [(ip, (1, tNext + 60))])
    ∧ ∀ (pepper : PyStr) (db : Db) (body : Option (PyStr × PyStr)),
        api_activate pepper [(ip, (60, t0 + 60))] db ip t61 body =
          (ActResp.rateLimited, [(ip, (60, t0 + 60))], db) := by
  have hrej : rate_limit_ok [(ip, (60, t0 + 60))] ip t61 =
      (false, [(ip, (60, t0 + 60))]) := by
    have h1 : ¬(t0 + 60 < t61) := not_lt.2 h61
    simp [rate_limit_ok, rateGet, rateSet, RATE_LIMIT_MAX, h1]
  refine ⟨?_, hrej, ?_, ?_⟩
  · have hfirst : rate_limit_ok [] ip t0 = (true, [(ip, (1, t0 + 60))]) := by
      have h1 : ¬(t0 + RATE_LIMIT_WINDOW < t0) := by
        simp [RATE_LIMIT_WINDOW]
      simp [rate_limit_ok, rateGet, rateSet, RATE_LIMIT_MAX, RATE_LIMIT_WINDOW, h1]
    have hrest60 : ∀ u ∈ rest, u ≤ t0 + 60 := hrest
    have hrun := runRequests_in_window ip (t0 + 60) rest hrest60 1
      (by simp [RATE_LIMIT_MAX, hlen])
    have h60 : (1 : Nat) + rest.length = 60 := by rw [hlen]
    simp only [runRequests, hfirst, hrun, hlen, h60]
    have hrep : (true :: List.replicate 59 true) = List.replicate 60 true := by decide
    have hsum : (1 : Nat) + 59 = 60 := by decide
    rw [← hrep, hsum]
  · simp [rate_limit_ok, rateGet, rateSet, RATE_LIMIT_WINDOW, hNext]
  · intro pepper db body
    simp [api_activate, hrej]

/-- Witness for C7: sixty requests at time 0, a 61st at time 60 (still
inside the window), and one at time 61 (past the deadline). -/
theorem C7_rate_limiter_witness :
    (List.replicate 59 (0 : Int)).length = 59
    ∧ (∀ u ∈ List.replicate 59 (0 : Int), u ≤ (0 : Int) + 60)
    ∧ (runRequests [] (("1.2.3.4").toList) ((0 : Int) :: List.replicate 59 0) =
        (List.replicate 60 true, [((("1.2.3.4").toList), (60, (0 : Int) + 60))])
      ∧ rate_limit_ok [((("1.2.3.4").toList), (60, (0 : Int) + 60))]
          (("1.2.3.4").toList) 60 =
        (false, [((("1.2.3.4").toList), (60, (0 : Int) + 60))])
      ∧ rate_limit_ok [((("1.2.3.4").toList), (60, (0 : Int) + 60))]
          (("1.2.3.4").toList) 61 =
        (true, [((("1.2.3.4").toList), (1, (61 : Int) + 60))])
      ∧ ∀ (pepper : PyStr) (db : Db) (body : Option (PyStr × PyStr)),
          api_activate pepper [((("1.2.3.4").toList), (60, (0 : Int) + 60))] db
            (("1.2.3.4").toList) 60 body =
            (ActResp.rateLimited,
              [((("1.2.3.4").toList), (60, (0 : Int) + 60))], db)) :=
  ⟨by decide, by decide,
    C7_rate_limiter (("1.2.3.4").toList) 0 (List.replicate 59 0) 60 61
      (by decide) (by decide) (by decide) (by decide)⟩

-- ## C4

/-- C4: a found, unrevoked, unexpired, unbound license binds on first
activation: the response is `ok` carrying the record's expiry, the
record's `hwid_hash` becomes the hash of the supplied hwid and
`last_seen_at` becomes the current time; a later activation (at any
not-yet-expired time) with the same hwid succeeds again and refreshes
`last_seen_at`, while one with a hwid whose normalized form differs
gets `hwidMismatch`. -/
theorem C4_first_bind (pepper : PyStr) (db : Db) (t t2 : Int)
    (rawKey hwA hwB : PyStr) (row : LicenseRow)
    (hk1 : 10 ≤ (normalize_key rawKey).length)
    (hk2 : (normalize_key rawKey).length ≤ 128)
    (ha1 : 16 ≤ (normalize_hwid hwA).length)
    (ha2 : (normalize_hwid hwA).length ≤ 128)
    (hb1 : 16 ≤ (normalize_hwid hwB).length)
    (hb2 : (normalize_hwid hwB).length ≤ 128)
    (hfind : findRow db (hash_license_key pepper (normalize_key rawKey)) = some row)
    (hrev : row.revoked = false)
    (hexp : isExpired row.expires_at t = false)
    (hexp2 : isExpired row.expires_at t2 = false)
    (hunbound : row.hwid_hash = none)
    (hdiff : pyStrip (normalize_hwid hwB) ≠ pyStrip (normalize_hwid hwA)) :
    api_activate_body pepper db t rawKey hwA =
      (ActResp.ok row.expires_at,
        bindUpdate db row.id (hash_hwid pepper (normalize_hwid hwA)) t)
    ∧ findRow (api_activate_body pepper db t rawKey hwA).2
        (hash_license_key pepper (normalize_key rawKey)) =
      some { row with hwid_hash := some (hash_hwid pepper (normalize_hwid hwA)),
                      last_seen_at := some t }
    ∧ (api_activate_body pepper (api_activate_body pepper db t rawKey hwA).2
        t2 rawKey hwA).1 = ActResp.ok row.expires_at
    ∧ findRow (api_activate_body pepper (api_activate_body pepper db t rawKey hwA).2
        t2 rawKey hwA).2 (hash_license_key pepper (normalize_key rawKey)) =
      some { row with hwid_hash := some (hash_hwid pepper (normalize_hwid hwA)),
                      last_seen_at := some t2 }
    ∧ (api_activate_body pepper (api_activate_body pepper db t rawKey hwA).2
        t2 rawKey hwB).1 = ActResp.hwidMismatch := by
  have hc1 : ¬((normalize_key rawKey).length < 10 ∨
      128 < (normalize_key rawKey).length) := by omega
  have hcA : ¬((normalize_hwid hwA).length < 16 ∨
      128 < (normalize_hwid hwA).length) := by omega
  have hcB : ¬((normalize_hwid hwB).length < 16 ∨
      128 < (normalize_hwid hwB).length) := by omega
  have step1 : api_activate_body pepper db t rawKey hwA =
      (ActResp.ok row.expires_at,
        bindUpdate db row.id (hash_hwid pepper (normalize_hwid hwA)) t) := by
    simp only [api_activate_body, if_neg hc1, if_neg hcA, activate_read]
    rw [hfind]
    simp [activate_decide, hrev, hexp, hunbound]
  have hfind2 : findRow
      (bindUpdate db row.id (hash_hwid pepper (normalize_hwid hwA)) t)
      (hash_license_key pepper (normalize_key rawKey)) =
      some { row with hwid_hash := some (hash_hwid pepper (normalize_hwid hwA)),
                      last_seen_at := some t } := by
    rw [findRow_bindUpdate, hfind]
    simp
  have step2 : api_activate_body pepper
      (bindUpdate db row.id (hash_hwid pepper (normalize_hwid hwA)) t)
      t2 rawKey hwA =
      (ActResp.ok row.expires_at,
        seenUpdate (bindUpdate db row.id (hash_hwid pepper (normalize_hwid hwA)) t)
          row.id t2) := by
    simp only [api_activate_body, if_neg hc1, if_neg hcA, activate_read]
    rw [hfind2]
    simp [activate_decide, hrev, hexp2]
  have hne : hash_hwid pepper (normalize_hwid hwA) ≠
      hash_hwid pepper (normalize_hwid hwB) := by
    intro he
    exact hdiff (List.append_cancel_left he).symm
  have step3 : (api_activate_body pepper
      (bindUpdate db row.id (hash_hwid pepper (normalize_hwid hwA)) t)
      t2 rawKey hwB).1 = ActResp.hwidMismatch := by
    simp only [api_activate_body, if_neg hc1, if_neg hcB, activate_read]
    rw [hfind2]
    simp [activate_decide, hrev, hexp2, hne]
  refine ⟨step1, ?_, ?_, ?_, ?_⟩
  · rw [step1]
    exact hfind2
  · rw [step1]
    rw [step2]
  · rw [step1, step2]
    rw [findRow_seenUpdate, hfind2]
    simp
  · rw [step1]
    exact step3

/-- Witness for C4: a fresh lifetime license binds to `hwidExA` at time
100, re-activates with the same hwid at time 200, and rejects
`hwidExB` with `hwidMismatch`. -/
theorem C4_first_bind_witness :
    (10 ≤ (normalize_key keyEx).length
      ∧ 16 ≤ (normalize_hwid hwidExA).length
      ∧ 16 ≤ (normalize_hwid hwidExB).length
      ∧ pyStrip (normalize_hwid hwidExB) ≠ pyStrip (normalize_hwid hwidExA)
      ∧ findRow [rowLifetime] (hash_license_key pepperEx (normalize_key keyEx)) =
          some rowLifetime)
    ∧ (api_activate_body pepperEx [rowLifetime] 100 keyEx hwidExA =
        (ActResp.ok none,
          bindUpdate [rowLifetime] rowLifetime.id
            (hash_hwid pepperEx (normalize_hwid hwidExA)) 100)
      ∧ findRow (api_activate_body pepperEx [rowLifetime] 100 keyEx hwidExA).2
          (hash_license_key pepperEx (normalize_key keyEx)) =
        some { rowLifetime with
                hwid_hash := some (hash_hwid pepperEx (normalize_hwid hwidExA)),
                last_seen_at := some 100 }
      ∧ (api_activate_body pepperEx
          (api_activate_body pepperEx [rowLifetime] 100 keyEx hwidExA).2
          200 keyEx hwidExA).1 = ActResp.ok none
      ∧ findRow (api_activate_body pepperEx
          (api_activate_body pepperEx [rowLifetime] 100 keyEx hwidExA).2
          200 keyEx hwidExA).2
          (hash_license_key pepperEx (normalize_key keyEx)) =
        some { rowLifetime with
                hwid_hash := some (hash_hwid pepperEx (normalize_hwid hwidExA)),
                last_seen_at := some 200 }
      ∧ (api_activate_body pepperEx
          (api_activate_body pepperEx [rowLifetime] 100 keyEx hwidExA).2
          200 keyEx hwidExB).1 = ActResp.hwidMismatch) :=
  ⟨⟨by decide, by decide, by decide, by decide, by decide⟩,
    C4_first_bind pepperEx [rowLifetime] 100 200 keyEx hwidExA hwidExB rowLifetime
      (by decide) (by decide) (by decide) (by decide) (by decide) (by decide)
      (by decide) rfl rfl rfl rfl (by decide)⟩

-- ## C1

/-- C1: the lost-update race of `api_activate`.  Each activation call is
a `SELECT` step (`activate_read`) followed, after an `await` boundary, by
a decide-and-write step (`activate_decide`); the bind `UPDATE` at
license_core.py lines 192-195 is keyed on `id` alone and is not guarded
on `hwid_hash` still being NULL, and no transaction spans the two
statements.  In the interleaving where both calls perform their `SELECT`
before either performs its `UPDATE` — reachable because `api_activate`
awaits between `fetchone()` and `execute(UPDATE)` — both calls take the
unbound branch: both return the `ok(bound=true)` response, and the
second writer silently overwrites the first binding, leaving the license
bound to `hwidExB`.  The spec's claim that exactly one call returns `ok`
and the other `hwidMismatch` is therefore false for this code. -/
theorem C1_race_both_bind :
    (activate_decide [rowLifetime] 5 (hash_hwid pepperEx (normalize_hwid hwidExA))
        (activate_read [rowLifetime]
          (hash_license_key pepperEx (normalize_key keyEx)))).1
      = ActResp.ok none
    ∧ (activate_decide
        (activate_decide [rowLifetime] 5
          (hash_hwid pepperEx (normalize_hwid hwidExA))
          (activate_read [rowLifetime]
            (hash_license_key pepperEx (normalize_key keyEx)))).2
        5 (hash_hwid pepperEx (normalize_hwid hwidExB))
        (activate_read [rowLifetime]
          (hash_license_key pepperEx (normalize_key keyEx)))).1
      = ActResp.ok none
    ∧ findRow
        (activate_decide
          (activate_decide [rowLifetime] 5
            (hash_hwid pepperEx (normalize_hwid hwidExA))
            (activate_read [rowLifetime]
              (hash_license_key pepperEx (normalize_key keyEx)))).2
          5 (hash_hwid pepperEx (normalize_hwid hwidExB))
          (activate_read [rowLifetime]
            (hash_license_key pepperEx (normalize_key keyEx)))).2
        (hash_license_key pepperEx (normalize_key keyEx)) =
      some { rowLifetime with
              hwid_hash := some (hash_hwid pepperEx (normalize_hwid hwidExB)),
              last_seen_at := some 5 } :=
  ⟨by decide, by decide, by decide⟩
